import Mathlib

/-!
Verification of the ipcookies reference implementation (`src/ipcookies.h`).

The repository ships a single header: it fixes the data model (the
`ipcookie_entry` slot layout with its 16+8-bit split timestamp and the
flags/lifetime byte), the protocol constants, the ICMP message layout, and it
documents — in its long comments — the send-path state machine, the daemon's
control-message handling and the stateless verifier.  The function bodies
themselves (`ipcookies.c`, `ipcookies_stateless.h`, `ipcookies_cache.h`) are
not part of the sources available here, so each operation below is modelled
from the specification text, faithful to its words, over the data layout the
header fixes.  Machine integers are modelled as `Nat` with explicit `% 2^w`
reductions at the points where the C code stores into a fixed-width field.
-/

namespace IPCookies

/-! ## Protocol constants (from `src/ipcookies.h`) -/

/-- Header constant `IPCOOKIE_T_RECOVER 3` — seconds to await SET-COOKIE. -/
def IPCOOKIE_T_RECOVER : Nat := 3

/-- Header constant `IPCOOKIE_FALLBACK_LT2 8` — log2 seconds of cookie-less fallback. -/
def IPCOOKIE_FALLBACK_LT2 : Nat := 8

/-- Header constant `IPCOOKIE_TRY_LT2 3` — log2 seconds of the retry window. -/
def IPCOOKIE_TRY_LT2 : Nat := 3

/-- Header constant `IPCOOKIE_LIFETIME_LOG2_INFINITE 0xF` — sentinel "infinite" lifetime. -/
def IPCOOKIE_LIFETIME_LOG2_INFINITE : Nat := 0xF

/-- Header constant `ICMP6_IPCOOKIES 0x42` — the ICMP type used by the protocol. -/
def ICMP6_IPCOOKIES : Nat := 0x42

/-- Header constant `ICMP6_IC_SET_COOKIE 0x1` — code of the SET-COOKIE message. -/
def ICMP6_IC_SET_COOKIE : Nat := 0x1

/-- Header constant `ICMP6_IC_SETCOOKIE_NOT_EXPECTED 0x02` — code of the
SETCOOKIE-NOT-EXPECTED message. -/
def ICMP6_IC_SETCOOKIE_NOT_EXPECTED : Nat := 0x02

/-- Header constant `ICMP6_IPCK_LT_LOG2_MASK 0x0F` — mask extracting `lt_log2` from the
first ICMP data byte. -/
def ICMP6_IPCK_LT_LOG2_MASK : Nat := 0x0F

/-- The modulus `2^24`: the timestamp stored in an entry keeps only the low 24 bits
(16 in `mtime_lo16`, 8 in `mtime_hi8`), so all time comparisons are modulo
this value. -/
def TS_MOD : Nat := 16777216

/-! ## The cache-entry slot (`struct ipcookie_entry`)

The C struct packs the peer address, a 24-bit modification timestamp stored as
`uint16_t mtime_lo16` plus `uint8_t mtime_hi8`, one byte
`flags_and_lifetime_log2` whose upper four bits are flags and lower four bits
the log2 lifetime, and the 96-bit cookie.  Addresses and cookies are opaque
values compared only for equality, so both are modelled as `Nat`. -/

structure ipcookie_entry where
  peer : Nat
  mtime_lo16 : Nat
  mtime_hi8 : Nat
  flags_and_lifetime_log2 : Nat
  ipcookie : Nat
deriving Repr, DecidableEq

/-- Modelled from the spec: the two flags (`DISABLE_COOKIES`,
`EXPECTING_SETCOOKIE`) "occupy the upper nibble of the flags byte"; the header
hides the concrete bit masks behind accessor functions whose bodies are not in
the sources, so a concrete choice of upper-nibble bit is made here for
`DISABLE_COOKIES`. -/
def IPCOOKIE_ENTRY_FLAG_DISABLE_COOKIES : Nat := 0x80

/-- Modelled from the spec: upper-nibble bit chosen for `EXPECTING_SETCOOKIE`
(see `IPCOOKIE_ENTRY_FLAG_DISABLE_COOKIES`). -/
def IPCOOKIE_ENTRY_FLAG_EXPECTING_SETCOOKIE : Nat := 0x40

/-- The lifetime exponent is the low nibble of the flags byte. -/
def entry_lifetime_log2 (ce : ipcookie_entry) : Nat :=
  ce.flags_and_lifetime_log2 % 16

/-- The 24-bit entry timestamp reassembled from its 16+8 split. -/
def entry_mtime (ce : ipcookie_entry) : Nat :=
  ce.mtime_hi8 % 256 * 65536 + ce.mtime_lo16 % 65536

/-- Modelled from the spec: `int ipcookie_entry_isset_disable_cookies` (body
not in the sources) tests the `DISABLE_COOKIES` flag bit. -/
def ipcookie_entry_isset_disable_cookies (ce : ipcookie_entry) : Bool :=
  decide (ce.flags_and_lifetime_log2 / 128 % 2 = 1)

/-- Modelled from the spec: `void ipcookie_entry_set_disable_cookies` (body not
in the sources) sets the `DISABLE_COOKIES` flag bit, leaving every other bit of
the flags byte unchanged. -/
def ipcookie_entry_set_disable_cookies (ce : ipcookie_entry) : ipcookie_entry :=
  { ce with flags_and_lifetime_log2 :=
      if ce.flags_and_lifetime_log2 / 128 % 2 = 1 then ce.flags_and_lifetime_log2
      else ce.flags_and_lifetime_log2 + 128 }

/-- Modelled from the spec: `void ipcookie_entry_clear_disable_cookies` (body
not in the sources) clears the `DISABLE_COOKIES` flag bit. -/
def ipcookie_entry_clear_disable_cookies (ce : ipcookie_entry) : ipcookie_entry :=
  { ce with flags_and_lifetime_log2 :=
      if ce.flags_and_lifetime_log2 / 128 % 2 = 1 then ce.flags_and_lifetime_log2 - 128
      else ce.flags_and_lifetime_log2 }

/-- Modelled from the spec: `int ipcookie_entry_isset_expecting_setcookie`
(body not in the sources) tests the `EXPECTING_SETCOOKIE` flag bit. -/
def ipcookie_entry_isset_expecting_setcookie (ce : ipcookie_entry) : Bool :=
  decide (ce.flags_and_lifetime_log2 / 64 % 2 = 1)

/-- Modelled from the spec: `void ipcookie_entry_set_expecting_setcookie` (body
not in the sources) sets the `EXPECTING_SETCOOKIE` flag bit. -/
def ipcookie_entry_set_expecting_setcookie (ce : ipcookie_entry) : ipcookie_entry :=
  { ce with flags_and_lifetime_log2 :=
      if ce.flags_and_lifetime_log2 / 64 % 2 = 1 then ce.flags_and_lifetime_log2
      else ce.flags_and_lifetime_log2 + 64 }

/-- Modelled from the spec: `void ipcookie_entry_clear_expecting_setcookie`
(body not in the sources) clears the `EXPECTING_SETCOOKIE` flag bit. -/
def ipcookie_entry_clear_expecting_setcookie (ce : ipcookie_entry) : ipcookie_entry :=
  { ce with flags_and_lifetime_log2 :=
      if ce.flags_and_lifetime_log2 / 64 % 2 = 1 then ce.flags_and_lifetime_log2 - 64
      else ce.flags_and_lifetime_log2 }

/-- Modelled from the spec: `void ipcookie_entry_update_mtime` (body not in the
sources) writes the low 24 bits of the given timestamp into
`mtime_lo16` / `mtime_hi8`.  The current time is passed explicitly. -/
def ipcookie_entry_update_mtime (ce : ipcookie_entry) (t_now : Nat) : ipcookie_entry :=
  { ce with mtime_lo16 := t_now % 65536, mtime_hi8 := t_now / 65536 % 256 }

/-- Modelled from the spec: `void ipcookie_entry_set_lifetime_log2` (body not
in the sources) replaces the low nibble of the flags-and-lifetime byte,
preserving the high (flags) nibble. -/
def ipcookie_entry_set_lifetime_log2 (ce : ipcookie_entry) (new_lifetime_log2 : Nat) :
    ipcookie_entry :=
  { ce with flags_and_lifetime_log2 :=
      ce.flags_and_lifetime_log2 / 16 * 16 + new_lifetime_log2 % 16 }

/-- Modelled from the spec: `void ipcookie_entry_mtime_backdate_by_lifetime_log2`
(body not in the sources) writes the low 24 bits of `t_now − 2^lifetime_log2`;
the subtraction is modular in 24 bits, realised here by adding `2^24` before
subtracting (the lifetime is at most `2^15`). -/
def ipcookie_entry_mtime_backdate_by_lifetime_log2 (ce : ipcookie_entry) (t_now : Nat) :
    ipcookie_entry :=
  ipcookie_entry_update_mtime ce (t_now + TS_MOD - 2 ^ entry_lifetime_log2 ce)

/-! ## The three-case timestamp check -/

/-- Result of `check_ipcookie_entry_timestamp` (the C enum
`ipcookie_ts_check_t`). -/
inductive ipcookie_ts_check_t where
  | IPCOOKIE_TS_STILL_VALID
  | IPCOOKIE_TS_RENEW_TIME
  | IPCOOKIE_TS_PAST_RENEW_TIME
deriving Repr, DecidableEq

open ipcookie_ts_check_t

/-- Modelled from the spec: `check_ipcookie_entry_timestamp` (body not in the
sources) classifies the current time against the entry:
case 0 below `mtime + 2^lifetime_log2`, case 1 up to `IPCOOKIE_T_RECOVER`
seconds past that, case 2 beyond.  Comparisons are modulo `2^24` (only 24
timestamp bits are stored), realised by comparing the modular distance from
`mtime` to `t_now` against the two thresholds. -/
def check_ipcookie_entry_timestamp (ce : ipcookie_entry) (t_now : Nat) :
    ipcookie_ts_check_t :=
  if (t_now + TS_MOD - entry_mtime ce) % TS_MOD < 2 ^ entry_lifetime_log2 ce then
    IPCOOKIE_TS_STILL_VALID
  else if (t_now + TS_MOD - entry_mtime ce) % TS_MOD <
      2 ^ entry_lifetime_log2 ce + IPCOOKIE_T_RECOVER then
    IPCOOKIE_TS_RENEW_TIME
  else IPCOOKIE_TS_PAST_RENEW_TIME

/-- The reassembled entry timestamp always fits in 24 bits. -/
theorem entry_mtime_lt_ts_mod (ce : ipcookie_entry) : entry_mtime ce < TS_MOD := by
  unfold entry_mtime TS_MOD
  omega

/-- Updating the mtime stores exactly the low 24 bits of the timestamp. -/
theorem entry_mtime_update (ce : ipcookie_entry) (t : Nat) :
    entry_mtime (ipcookie_entry_update_mtime ce t) = t % TS_MOD := by
  unfold entry_mtime ipcookie_entry_update_mtime TS_MOD
  simp only
  omega

/-- C1: with `t_exp = mtime + 2^lifetime_log2` and all comparisons modulo
`2^24` — i.e. in terms of the modular distance `δ = (t_now − mtime) mod 2^24` —
the timestamp check returns `IPCOOKIE_TS_STILL_VALID` exactly when
`t_now < t_exp` (`δ < 2^ℓ`), `IPCOOKIE_TS_RENEW_TIME` exactly when
`t_exp ≤ t_now < t_exp + IPCOOKIE_T_RECOVER` (`2^ℓ ≤ δ < 2^ℓ + 3`), and
`IPCOOKIE_TS_PAST_RENEW_TIME` exactly when `t_now ≥ t_exp + IPCOOKIE_T_RECOVER`
(`δ ≥ 2^ℓ + 3`). -/
theorem check_timestamp_cases (ce : ipcookie_entry) (t_now : Nat) :
    (check_ipcookie_entry_timestamp ce t_now = IPCOOKIE_TS_STILL_VALID ↔
      (t_now + TS_MOD - entry_mtime ce) % TS_MOD < 2 ^ entry_lifetime_log2 ce) ∧
    (check_ipcookie_entry_timestamp ce t_now = IPCOOKIE_TS_RENEW_TIME ↔
      (2 ^ entry_lifetime_log2 ce ≤ (t_now + TS_MOD - entry_mtime ce) % TS_MOD ∧
       (t_now + TS_MOD - entry_mtime ce) % TS_MOD <
         2 ^ entry_lifetime_log2 ce + IPCOOKIE_T_RECOVER)) ∧
    (check_ipcookie_entry_timestamp ce t_now = IPCOOKIE_TS_PAST_RENEW_TIME ↔
      2 ^ entry_lifetime_log2 ce + IPCOOKIE_T_RECOVER ≤
        (t_now + TS_MOD - entry_mtime ce) % TS_MOD) := by
  unfold check_ipcookie_entry_timestamp
  split_ifs with h0 h1 <;>
    refine ⟨?_, ?_, ?_⟩ <;> simp_all <;> omega

/-! ## Shim send path

The header describes the send-path state machine in its comments: a three-case
timestamp analysis, branched on `DISABLE_COOKIES` and `EXPECTING_SETCOOKIE`,
followed by a separate lookup of `DISABLE_COOKIES` to decide whether the
outgoing packet gets the cookie option. -/

/-- Modelled from the spec: the send-path transition for an existing entry
(the shim code itself is not in the sources; the header documents it case by
case).  With `DISABLE_COOKIES` set: case 0 does nothing, cases 1 and 2 clear
`DISABLE_COOKIES`, update the mtime and set the lifetime to
`IPCOOKIE_TRY_LT2`.  With `DISABLE_COOKIES` clear: case 0 does nothing; cases
1 and 2 with `EXPECTING_SETCOOKIE` clear set that flag and backdate the mtime
by `2^lifetime_log2`; case 1 with it set does nothing; case 2 with it set
enters fallback: set `DISABLE_COOKIES`, clear `EXPECTING_SETCOOKIE` (the
fallback state of the machine is `D=1, X=0`), update the mtime and set the
lifetime to `IPCOOKIE_FALLBACK_LT2`. -/
def ipcookie_shim_send_entry (ce : ipcookie_entry) (t_now : Nat) : ipcookie_entry :=
  match check_ipcookie_entry_timestamp ce t_now with
  | IPCOOKIE_TS_STILL_VALID => ce
  | IPCOOKIE_TS_RENEW_TIME =>
      if ipcookie_entry_isset_disable_cookies ce then
        ipcookie_entry_set_lifetime_log2
          (ipcookie_entry_update_mtime (ipcookie_entry_clear_disable_cookies ce) t_now)
          IPCOOKIE_TRY_LT2
      else if ipcookie_entry_isset_expecting_setcookie ce then ce
      else
        ipcookie_entry_mtime_backdate_by_lifetime_log2
          (ipcookie_entry_set_expecting_setcookie ce) t_now
  | IPCOOKIE_TS_PAST_RENEW_TIME =>
      if ipcookie_entry_isset_disable_cookies ce then
        ipcookie_entry_set_lifetime_log2
          (ipcookie_entry_update_mtime (ipcookie_entry_clear_disable_cookies ce) t_now)
          IPCOOKIE_TRY_LT2
      else if ipcookie_entry_isset_expecting_setcookie ce then
        ipcookie_entry_set_lifetime_log2
          (ipcookie_entry_update_mtime
            (ipcookie_entry_set_disable_cookies
              (ipcookie_entry_clear_expecting_setcookie ce)) t_now)
          IPCOOKIE_FALLBACK_LT2
      else
        ipcookie_entry_mtime_backdate_by_lifetime_log2
          (ipcookie_entry_set_expecting_setcookie ce) t_now

/-- Modelled from the spec: the cookie-attach decision made after the state
transition.  If `DISABLE_COOKIES` is set the packet is sent as-is with no
cookie attached; otherwise a cookie option carrying `E.ipcookie` is attached. -/
def ipcookie_shim_attach_cookie (ce : ipcookie_entry) : Option Nat :=
  if ipcookie_entry_isset_disable_cookies ce then none else some ce.ipcookie

/-- Modelled from the spec: the whole send-path step for a peer that already
has an entry: run the state transition, then decide the cookie option from
the updated entry.  Returns the updated entry and the attached cookie
(`none` when the packet goes out without a cookie option). -/
def ipcookie_shim_send (ce : ipcookie_entry) (t_now : Nat) :
    ipcookie_entry × Option Nat :=
  (ipcookie_shim_send_entry ce t_now,
   ipcookie_shim_attach_cookie (ipcookie_shim_send_entry ce t_now))

/-- Modelled from the spec: entry allocation on the first outbound packet to a
peer with no entry (shim code not in the sources).  The new entry records the
peer and the current timestamp; with cookies active by local policy it gets
lifetime 0, `EXPECTING_SETCOOKIE` set, `DISABLE_COOKIES` clear and cookie 0;
with cookies inactive it gets the infinite lifetime `0xF`,
`DISABLE_COOKIES` set and `EXPECTING_SETCOOKIE` clear. -/
def ipcookie_entry_create (peer : Nat) (cookies_active : Bool) (t_now : Nat) :
    ipcookie_entry :=
  let base : ipcookie_entry :=
    { peer := peer, mtime_lo16 := t_now % 65536, mtime_hi8 := t_now / 65536 % 256,
      flags_and_lifetime_log2 := 0, ipcookie := 0 }
  if cookies_active then
    ipcookie_entry_set_expecting_setcookie (ipcookie_entry_set_lifetime_log2 base 0)
  else
    ipcookie_entry_set_disable_cookies
      (ipcookie_entry_set_lifetime_log2 base IPCOOKIE_LIFETIME_LOG2_INFINITE)

/-- Modelled from the spec: the whole send-path step for a peer with no entry:
create the entry per local policy, then decide the cookie option from it. -/
def ipcookie_shim_send_no_entry (peer : Nat) (cookies_active : Bool) (t_now : Nat) :
    ipcookie_entry × Option Nat :=
  (ipcookie_entry_create peer cookies_active t_now,
   ipcookie_shim_attach_cookie (ipcookie_entry_create peer cookies_active t_now))

/-! ### Helper lemmas: how each mutator acts on each accessor -/

theorem lifetime_update_mtime (ce : ipcookie_entry) (t : Nat) :
    entry_lifetime_log2 (ipcookie_entry_update_mtime ce t) = entry_lifetime_log2 ce := rfl

theorem lifetime_set_lifetime (ce : ipcookie_entry) (n : Nat) :
    entry_lifetime_log2 (ipcookie_entry_set_lifetime_log2 ce n) = n % 16 := by
  unfold entry_lifetime_log2 ipcookie_entry_set_lifetime_log2
  simp only
  omega

theorem lifetime_set_disable (ce : ipcookie_entry) :
    entry_lifetime_log2 (ipcookie_entry_set_disable_cookies ce) = entry_lifetime_log2 ce := by
  unfold entry_lifetime_log2 ipcookie_entry_set_disable_cookies
  split_ifs <;> simp <;> omega

theorem lifetime_clear_disable (ce : ipcookie_entry) :
    entry_lifetime_log2 (ipcookie_entry_clear_disable_cookies ce) = entry_lifetime_log2 ce := by
  unfold entry_lifetime_log2 ipcookie_entry_clear_disable_cookies
  split_ifs <;> simp <;> omega

theorem lifetime_set_expecting (ce : ipcookie_entry) :
    entry_lifetime_log2 (ipcookie_entry_set_expecting_setcookie ce) = entry_lifetime_log2 ce := by
  unfold entry_lifetime_log2 ipcookie_entry_set_expecting_setcookie
  split_ifs <;> simp <;> omega

theorem lifetime_clear_expecting (ce : ipcookie_entry) :
    entry_lifetime_log2 (ipcookie_entry_clear_expecting_setcookie ce) = entry_lifetime_log2 ce := by
  unfold entry_lifetime_log2 ipcookie_entry_clear_expecting_setcookie
  split_ifs <;> simp <;> omega

theorem mtime_set_disable (ce : ipcookie_entry) :
    entry_mtime (ipcookie_entry_set_disable_cookies ce) = entry_mtime ce := rfl

theorem mtime_clear_disable (ce : ipcookie_entry) :
    entry_mtime (ipcookie_entry_clear_disable_cookies ce) = entry_mtime ce := rfl

theorem mtime_set_expecting (ce : ipcookie_entry) :
    entry_mtime (ipcookie_entry_set_expecting_setcookie ce) = entry_mtime ce := rfl

theorem mtime_clear_expecting (ce : ipcookie_entry) :
    entry_mtime (ipcookie_entry_clear_expecting_setcookie ce) = entry_mtime ce := rfl

theorem mtime_set_lifetime (ce : ipcookie_entry) (n : Nat) :
    entry_mtime (ipcookie_entry_set_lifetime_log2 ce n) = entry_mtime ce := rfl

theorem disable_set_disable (ce : ipcookie_entry) :
    ipcookie_entry_isset_disable_cookies (ipcookie_entry_set_disable_cookies ce) = true := by
  unfold ipcookie_entry_isset_disable_cookies ipcookie_entry_set_disable_cookies
  split_ifs <;> simp <;> omega

theorem disable_clear_disable (ce : ipcookie_entry) :
    ipcookie_entry_isset_disable_cookies (ipcookie_entry_clear_disable_cookies ce) = false := by
  unfold ipcookie_entry_isset_disable_cookies ipcookie_entry_clear_disable_cookies
  split_ifs <;> simp <;> omega

theorem disable_set_expecting (ce : ipcookie_entry) :
    ipcookie_entry_isset_disable_cookies (ipcookie_entry_set_expecting_setcookie ce)
      = ipcookie_entry_isset_disable_cookies ce := by
  unfold ipcookie_entry_isset_disable_cookies ipcookie_entry_set_expecting_setcookie
  split_ifs <;> simp <;> omega

theorem disable_clear_expecting (ce : ipcookie_entry) :
    ipcookie_entry_isset_disable_cookies (ipcookie_entry_clear_expecting_setcookie ce)
      = ipcookie_entry_isset_disable_cookies ce := by
  unfold ipcookie_entry_isset_disable_cookies ipcookie_entry_clear_expecting_setcookie
  split_ifs <;> simp <;> omega

theorem disable_update_mtime (ce : ipcookie_entry) (t : Nat) :
    ipcookie_entry_isset_disable_cookies (ipcookie_entry_update_mtime ce t)
      = ipcookie_entry_isset_disable_cookies ce := rfl

theorem disable_set_lifetime (ce : ipcookie_entry) (n : Nat) :
    ipcookie_entry_isset_disable_cookies (ipcookie_entry_set_lifetime_log2 ce n)
      = ipcookie_entry_isset_disable_cookies ce := by
  unfold ipcookie_entry_isset_disable_cookies ipcookie_entry_set_lifetime_log2
  simp only [decide_eq_decide]
  omega

theorem expecting_set_expecting (ce : ipcookie_entry) :
    ipcookie_entry_isset_expecting_setcookie (ipcookie_entry_set_expecting_setcookie ce)
      = true := by
  unfold ipcookie_entry_isset_expecting_setcookie ipcookie_entry_set_expecting_setcookie
  split_ifs <;> simp <;> omega

theorem expecting_clear_expecting (ce : ipcookie_entry) :
    ipcookie_entry_isset_expecting_setcookie (ipcookie_entry_clear_expecting_setcookie ce)
      = false := by
  unfold ipcookie_entry_isset_expecting_setcookie ipcookie_entry_clear_expecting_setcookie
  split_ifs <;> simp <;> omega

theorem expecting_set_disable (ce : ipcookie_entry) :
    ipcookie_entry_isset_expecting_setcookie (ipcookie_entry_set_disable_cookies ce)
      = ipcookie_entry_isset_expecting_setcookie ce := by
  unfold ipcookie_entry_isset_expecting_setcookie ipcookie_entry_set_disable_cookies
  split_ifs <;> simp <;> omega

theorem expecting_clear_disable (ce : ipcookie_entry) :
    ipcookie_entry_isset_expecting_setcookie (ipcookie_entry_clear_disable_cookies ce)
      = ipcookie_entry_isset_expecting_setcookie ce := by
  unfold ipcookie_entry_isset_expecting_setcookie ipcookie_entry_clear_disable_cookies
  split_ifs <;> simp <;> omega

theorem expecting_update_mtime (ce : ipcookie_entry) (t : Nat) :
    ipcookie_entry_isset_expecting_setcookie (ipcookie_entry_update_mtime ce t)
      = ipcookie_entry_isset_expecting_setcookie ce := rfl

theorem expecting_set_lifetime (ce : ipcookie_entry) (n : Nat) :
    ipcookie_entry_isset_expecting_setcookie (ipcookie_entry_set_lifetime_log2 ce n)
      = ipcookie_entry_isset_expecting_setcookie ce := by
  unfold ipcookie_entry_isset_expecting_setcookie ipcookie_entry_set_lifetime_log2
  simp only [decide_eq_decide]
  omega

theorem peer_ops (ce : ipcookie_entry) (t n : Nat) :
    (ipcookie_entry_set_disable_cookies ce).peer = ce.peer ∧
    (ipcookie_entry_clear_disable_cookies ce).peer = ce.peer ∧
    (ipcookie_entry_set_expecting_setcookie ce).peer = ce.peer ∧
    (ipcookie_entry_clear_expecting_setcookie ce).peer = ce.peer ∧
    (ipcookie_entry_update_mtime ce t).peer = ce.peer ∧
    (ipcookie_entry_set_lifetime_log2 ce n).peer = ce.peer := by
  refine ⟨rfl, rfl, rfl, rfl, rfl, rfl⟩

theorem cookie_ops (ce : ipcookie_entry) (t n : Nat) :
    (ipcookie_entry_set_disable_cookies ce).ipcookie = ce.ipcookie ∧
    (ipcookie_entry_clear_disable_cookies ce).ipcookie = ce.ipcookie ∧
    (ipcookie_entry_set_expecting_setcookie ce).ipcookie = ce.ipcookie ∧
    (ipcookie_entry_clear_expecting_setcookie ce).ipcookie = ce.ipcookie ∧
    (ipcookie_entry_update_mtime ce t).ipcookie = ce.ipcookie ∧
    (ipcookie_entry_set_lifetime_log2 ce n).ipcookie = ce.ipcookie := by
  refine ⟨rfl, rfl, rfl, rfl, rfl, rfl⟩

/-- C2: an entry with `DISABLE_COOKIES` clear and `EXPECTING_SETCOOKIE` set,
hit by a send in case 2 (past the renew window), moves to the FALLBACK state:
`DISABLE_COOKIES` set, `EXPECTING_SETCOOKIE` cleared, mtime updated to the
current timestamp, lifetime set to `IPCOOKIE_FALLBACK_LT2 = 8`; the peer and
cookie fields are untouched and the datagram goes out with no cookie option. -/
theorem shim_send_case2_fallback (ce : ipcookie_entry) (t_now : Nat)
    (hD : ipcookie_entry_isset_disable_cookies ce = false)
    (hX : ipcookie_entry_isset_expecting_setcookie ce = true)
    (hc : check_ipcookie_entry_timestamp ce t_now = IPCOOKIE_TS_PAST_RENEW_TIME) :
    ipcookie_entry_isset_disable_cookies (ipcookie_shim_send ce t_now).1 = true ∧
    ipcookie_entry_isset_expecting_setcookie (ipcookie_shim_send ce t_now).1 = false ∧
    entry_mtime (ipcookie_shim_send ce t_now).1 = t_now % TS_MOD ∧
    entry_lifetime_log2 (ipcookie_shim_send ce t_now).1 = IPCOOKIE_FALLBACK_LT2 ∧
    (ipcookie_shim_send ce t_now).1.peer = ce.peer ∧
    (ipcookie_shim_send ce t_now).1.ipcookie = ce.ipcookie ∧
    (ipcookie_shim_send ce t_now).2 = none := by
  simp only [ipcookie_entry_isset_disable_cookies, decide_eq_false_iff_not] at hD
  simp only [ipcookie_entry_isset_expecting_setcookie, decide_eq_true_eq] at hX
  simp only [ipcookie_shim_send, ipcookie_shim_send_entry, hc,
    ipcookie_shim_attach_cookie, ipcookie_entry_isset_disable_cookies,
    ipcookie_entry_isset_expecting_setcookie, ipcookie_entry_set_lifetime_log2,
    ipcookie_entry_update_mtime, ipcookie_entry_set_disable_cookies,
    ipcookie_entry_clear_expecting_setcookie, entry_mtime, entry_lifetime_log2,
    IPCOOKIE_FALLBACK_LT2, TS_MOD]
  split_ifs <;> simp_all <;> omega

/-- Concrete witness for `shim_send_case2_fallback`: an ACTIVE-EXPECTING entry
(`flags = 0x40`, lifetime 4, `mtime = 2`) sent at `t = 22`. -/
theorem shim_send_case2_fallback_witness :
    ipcookie_entry_isset_disable_cookies
        (ipcookie_shim_send ⟨7, 2, 0, 0x44, 9⟩ 22).1 = true ∧
      (ipcookie_shim_send ⟨7, 2, 0, 0x44, 9⟩ 22).2 = none :=
  ⟨(shim_send_case2_fallback ⟨7, 2, 0, 0x44, 9⟩ 22 (by decide) (by decide)
      (by decide)).1,
   (shim_send_case2_fallback ⟨7, 2, 0, 0x44, 9⟩ 22 (by decide) (by decide)
      (by decide)).2.2.2.2.2.2⟩

/-- C9: for an entry with `DISABLE_COOKIES` set, a send in case 1 behaves
identically to one in case 2 — both give the one retry outcome: clear
`DISABLE_COOKIES`, update mtime to the current timestamp, set the lifetime to
`IPCOOKIE_TRY_LT2 = 3`, and change nothing else (`EXPECTING_SETCOOKIE`, peer
and cookie keep their values); in case 0 the entry is left unchanged. -/
theorem shim_send_disabled (ce : ipcookie_entry) (t_now : Nat)
    (hD : ipcookie_entry_isset_disable_cookies ce = true) :
    (check_ipcookie_entry_timestamp ce t_now ≠ IPCOOKIE_TS_STILL_VALID →
      (ipcookie_entry_isset_disable_cookies (ipcookie_shim_send_entry ce t_now) = false ∧
       entry_mtime (ipcookie_shim_send_entry ce t_now) = t_now % TS_MOD ∧
       entry_lifetime_log2 (ipcookie_shim_send_entry ce t_now) = IPCOOKIE_TRY_LT2 ∧
       ipcookie_entry_isset_expecting_setcookie (ipcookie_shim_send_entry ce t_now)
         = ipcookie_entry_isset_expecting_setcookie ce ∧
       (ipcookie_shim_send_entry ce t_now).peer = ce.peer ∧
       (ipcookie_shim_send_entry ce t_now).ipcookie = ce.ipcookie)) ∧
    (check_ipcookie_entry_timestamp ce t_now = IPCOOKIE_TS_STILL_VALID →
      ipcookie_shim_send_entry ce t_now = ce) := by
  constructor
  · intro hc
    rcases hcv : check_ipcookie_entry_timestamp ce t_now with _ | _ | _
    · exact absurd hcv hc
    all_goals
      simp only [ipcookie_shim_send_entry, hcv, hD, if_true,
        disable_set_lifetime, disable_update_mtime, disable_clear_disable,
        mtime_set_lifetime, entry_mtime_update,
        lifetime_set_lifetime, IPCOOKIE_TRY_LT2,
        expecting_set_lifetime, expecting_update_mtime, expecting_clear_disable,
        peer_ops, cookie_ops]
      refine ⟨?_, ?_, ?_, ?_, ?_, ?_⟩ <;> trivial
  · intro hc
    simp only [ipcookie_shim_send_entry, hc]

/-- Concrete witness for `shim_send_disabled`: a FALLBACK entry
(`flags = 0x88`: disabled, lifetime 8, `mtime = 22`) sent at `t = 280`
(case 2) and at `t = 100` (case 0). -/
theorem shim_send_disabled_witness :
    (ipcookie_entry_isset_disable_cookies
        (ipcookie_shim_send_entry ⟨7, 22, 0, 0x88, 9⟩ 280) = false ∧
      entry_lifetime_log2 (ipcookie_shim_send_entry ⟨7, 22, 0, 0x88, 9⟩ 280)
        = IPCOOKIE_TRY_LT2) ∧
    ipcookie_shim_send_entry ⟨7, 22, 0, 0x88, 9⟩ 100 = ⟨7, 22, 0, 0x88, 9⟩ :=
  ⟨⟨((shim_send_disabled ⟨7, 22, 0, 0x88, 9⟩ 280 (by decide)).1 (by decide)).1,
    ((shim_send_disabled ⟨7, 22, 0, 0x88, 9⟩ 280 (by decide)).1 (by decide)).2.2.1⟩,
   (shim_send_disabled ⟨7, 22, 0, 0x88, 9⟩ 100 (by decide)).2 (by decide)⟩

/-- C3: an entry with both flags clear, hit by a send in case 1 or case 2,
gets `EXPECTING_SETCOOKIE` set and its mtime backdated to
`t_now − 2^lifetime_log2` (modulo `2^24`), with the lifetime unchanged; after
the transition the renew deadline `mtime + 2^lifetime_log2 + IPCOOKIE_T_RECOVER`
equals `t_now + IPCOOKIE_T_RECOVER` modulo `2^24`, so every send during the
next `IPCOOKIE_T_RECOVER` seconds still lands in the renew window (case 1):
the peer is granted the full recovery window to answer with SET-COOKIE. -/
theorem shim_send_backdate (ce : ipcookie_entry) (t_now : Nat)
    (hD : ipcookie_entry_isset_disable_cookies ce = false)
    (hX : ipcookie_entry_isset_expecting_setcookie ce = false)
    (hc : check_ipcookie_entry_timestamp ce t_now ≠ IPCOOKIE_TS_STILL_VALID) :
    ipcookie_entry_isset_expecting_setcookie (ipcookie_shim_send_entry ce t_now) = true ∧
    ipcookie_entry_isset_disable_cookies (ipcookie_shim_send_entry ce t_now) = false ∧
    entry_lifetime_log2 (ipcookie_shim_send_entry ce t_now) = entry_lifetime_log2 ce ∧
    entry_mtime (ipcookie_shim_send_entry ce t_now)
      = (t_now + TS_MOD - 2 ^ entry_lifetime_log2 ce) % TS_MOD ∧
    (entry_mtime (ipcookie_shim_send_entry ce t_now)
        + 2 ^ entry_lifetime_log2 (ipcookie_shim_send_entry ce t_now)
        + IPCOOKIE_T_RECOVER) % TS_MOD
      = (t_now + IPCOOKIE_T_RECOVER) % TS_MOD ∧
    ∀ d, d < IPCOOKIE_T_RECOVER →
      check_ipcookie_entry_timestamp (ipcookie_shim_send_entry ce t_now) (t_now + d)
        = IPCOOKIE_TS_RENEW_TIME := by
  have hlt : entry_lifetime_log2 ce < 16 := by
    unfold entry_lifetime_log2
    omega
  have hL : 2 ^ entry_lifetime_log2 ce ≤ 32768 := by
    calc 2 ^ entry_lifetime_log2 ce ≤ 2 ^ 15 := Nat.pow_le_pow_right (by norm_num) (by omega)
    _ = 32768 := by norm_num
  have hL1 : 0 < 2 ^ entry_lifetime_log2 ce := Nat.pos_pow_of_pos _ (by norm_num)
  have hres : ipcookie_shim_send_entry ce t_now
      = ipcookie_entry_update_mtime (ipcookie_entry_set_expecting_setcookie ce)
          (t_now + TS_MOD - 2 ^ entry_lifetime_log2 ce) := by
    rcases hcv : check_ipcookie_entry_timestamp ce t_now with _ | _ | _
    · exact absurd hcv hc
    all_goals
      simp only [ipcookie_shim_send_entry, hcv, hD, hX, Bool.false_eq_true, if_false,
        ipcookie_entry_mtime_backdate_by_lifetime_log2, lifetime_set_expecting]
  rw [hres]
  simp only [expecting_update_mtime, expecting_set_expecting, disable_update_mtime,
    disable_set_expecting, hD, lifetime_update_mtime, lifetime_set_expecting,
    entry_mtime_update, IPCOOKIE_T_RECOVER, true_and]
  refine ⟨?_, ?_⟩
  · unfold TS_MOD at *
    omega
  · intro d hd
    unfold check_ipcookie_entry_timestamp
    rw [entry_mtime_update, lifetime_update_mtime, lifetime_set_expecting]
    unfold TS_MOD IPCOOKIE_T_RECOVER at *
    split_ifs with h0 h1
    · exfalso
      omega
    · rfl
    · exfalso
      omega

/-- Concrete witness for `shim_send_backdate`: an ACTIVE-SETTLED entry
(`flags = 0x04`: lifetime 4, both flags clear, `mtime = 0`) sent at `t = 18`
(case 1, as in scenario S2 of the specification). -/
theorem shim_send_backdate_witness :
    ipcookie_entry_isset_expecting_setcookie
        (ipcookie_shim_send_entry ⟨7, 0, 0, 0x04, 9⟩ 18) = true ∧
      entry_mtime (ipcookie_shim_send_entry ⟨7, 0, 0, 0x04, 9⟩ 18) = 2 ∧
      check_ipcookie_entry_timestamp (ipcookie_shim_send_entry ⟨7, 0, 0, 0x04, 9⟩ 18) 20
        = IPCOOKIE_TS_RENEW_TIME :=
  ⟨(shim_send_backdate ⟨7, 0, 0, 0x04, 9⟩ 18 (by decide) (by decide) (by decide)).1,
   by
    rw [(shim_send_backdate ⟨7, 0, 0, 0x04, 9⟩ 18 (by decide) (by decide)
      (by decide)).2.2.2.1]
    decide,
   (shim_send_backdate ⟨7, 0, 0, 0x04, 9⟩ 18 (by decide) (by decide)
      (by decide)).2.2.2.2.2 2 (by decide)⟩

/-- C6 (amended): on the first outbound datagram to a peer with no entry and
cookies active by local policy, the created entry has the given peer, mtime
equal to the current timestamp (mod `2^24`), lifetime 0, `DISABLE_COOKIES`
clear, `EXPECTING_SETCOOKIE` set and cookie 0 — but since the attach decision
consults `DISABLE_COOKIES` after the transition and the flag is clear, the
datagram goes out with a cookie option of value 0 (the not-yet-learned
cookie), not with the option omitted. -/
theorem shim_send_no_entry_active (peer t_now : Nat) :
    (ipcookie_shim_send_no_entry peer true t_now).1.peer = peer ∧
    entry_mtime (ipcookie_shim_send_no_entry peer true t_now).1 = t_now % TS_MOD ∧
    entry_lifetime_log2 (ipcookie_shim_send_no_entry peer true t_now).1 = 0 ∧
    ipcookie_entry_isset_disable_cookies
      (ipcookie_shim_send_no_entry peer true t_now).1 = false ∧
    ipcookie_entry_isset_expecting_setcookie
      (ipcookie_shim_send_no_entry peer true t_now).1 = true ∧
    (ipcookie_shim_send_no_entry peer true t_now).1.ipcookie = 0 ∧
    (ipcookie_shim_send_no_entry peer true t_now).2 = some 0 := by
  simp only [ipcookie_shim_send_no_entry, ipcookie_entry_create, if_true,
    ipcookie_shim_attach_cookie, ipcookie_entry_set_expecting_setcookie,
    ipcookie_entry_set_lifetime_log2, ipcookie_entry_isset_disable_cookies,
    ipcookie_entry_isset_expecting_setcookie, entry_lifetime_log2, entry_mtime,
    TS_MOD]
  split_ifs <;> simp_all <;> omega

/-- C6 counterexample: at the concrete input (peer 0, cookies active,
`t = 0`) the freshly created entry has `DISABLE_COOKIES` clear, so the attach
decision yields a cookie option (of value 0) — the datagram is NOT
transmitted without a cookie option, contradicting the claim's last clause. -/
theorem shim_send_no_entry_attaches_cookie :
    (ipcookie_shim_send_no_entry 0 true 0).2 ≠ none ∧
    (ipcookie_shim_send_no_entry 0 true 0).2 = some 0 := by
  refine ⟨?_, ?_⟩ <;> decide

/-! ## Control messages and the cookie daemon

The header fixes the wire layout: an ICMP header whose first data byte
carries `lt_log2` in its low four bits (`icmp6_data8[0]`, mask
`ICMP6_IPCK_LT_LOG2_MASK`), followed by the `icmp6_ipcookies` payload of an
echoed and a requested 96-bit cookie. -/

structure icmp6_ipck_message where
  code : Nat
  icmp6_data8_0 : Nat
  echoed_cookie : Nat
  requested_cookie : Nat
deriving Repr, DecidableEq

/-- The lifetime exponent read from a received message: the first ICMP data
byte masked with `ICMP6_IPCK_LT_LOG2_MASK` (`ce->icmp6_ipck_lt_log2 & 0x0F`). -/
def icmp6_msg_lt_log2 (msg : icmp6_ipck_message) : Nat :=
  Nat.land msg.icmp6_data8_0 ICMP6_IPCK_LT_LOG2_MASK

/-- Masking the first data byte with `0x0F` is reduction modulo 16. -/
theorem msg_lt_log2_eq_mod (msg : icmp6_ipck_message) :
    icmp6_msg_lt_log2 msg = msg.icmp6_data8_0 % 16 := by
  unfold icmp6_msg_lt_log2 ICMP6_IPCK_LT_LOG2_MASK
  show msg.icmp6_data8_0 &&& 15 = msg.icmp6_data8_0 % 16
  have h15 : (15 : Nat) = 2 ^ 4 - 1 := by norm_num
  have h16 : (16 : Nat) = 2 ^ 4 := by norm_num
  rw [h15, h16]
  apply Nat.eq_of_testBit_eq
  intro i
  rw [Nat.testBit_land, Nat.testBit_mod_two_pow, Nat.testBit_two_pow_sub_one]
  rw [Bool.and_comm]

/-- Modelled from the spec: the daemon's action on a SET-COOKIE message for a
peer that has an entry (daemon code not in the sources).  If the echoed
cookie matches the stored one, install the requested cookie, set the lifetime
from the message, update the mtime and clear both flags; otherwise drop the
message, leaving the entry untouched. -/
def ipcookie_daemon_apply_set_cookie (ce : ipcookie_entry) (msg : icmp6_ipck_message)
    (t_now : Nat) : ipcookie_entry :=
  if msg.echoed_cookie = ce.ipcookie then
    ipcookie_entry_clear_disable_cookies
      (ipcookie_entry_clear_expecting_setcookie
        (ipcookie_entry_update_mtime
          (ipcookie_entry_set_lifetime_log2
            { ce with ipcookie := msg.requested_cookie } (icmp6_msg_lt_log2 msg))
          t_now))
  else ce

/-- Modelled from the spec: the daemon's handling of a SET-COOKIE message,
given the cache entry for the sending peer if one exists (daemon code not in
the sources).  With no entry, reply with a SETCOOKIE-NOT-EXPECTED whose
echoed cookie is the received message's requested cookie, creating no entry;
with an entry, process the message against it and send nothing.  The reply is
returned as the pair (ICMP code, echoed cookie) of the emitted message — the
spec fixes no other field of that reply. -/
def ipcookie_daemon_handle_set_cookie (stored : Option ipcookie_entry)
    (msg : icmp6_ipck_message) (t_now : Nat) :
    Option ipcookie_entry × Option (Nat × Nat) :=
  match stored with
  | none => (none, some (ICMP6_IC_SETCOOKIE_NOT_EXPECTED, msg.requested_cookie))
  | some ce => (some (ipcookie_daemon_apply_set_cookie ce msg t_now), none)

/-! ## Stateless server verifier -/

/-- The secret state of the stateless server side (`ipcookie_state_t`,
declared in the header; its layout lives in `ipcookies_stateless.h`, not in
the sources): a CURRENT and a PREVIOUS rotating secret. -/
structure ipcookie_state where
  current_secret : Nat
  previous_secret : Nat
deriving Repr, DecidableEq

inductive ipcookie_verify_result where
  | valid_current
  | valid_previous
  | invalid
deriving Repr, DecidableEq

/-- Modelled from the spec: the stateless verifier (`ipcookies_stateless.h`
is not in the sources).  `cookie_of` is the injected deterministic cookie
derivation over peer and secret; `verify` compares the received cookie with
the CURRENT-secret cookie first and only on mismatch with the
PREVIOUS-secret one, mutating nothing. -/
def ipcookie_verify (cookie_of : Nat → Nat → Nat) (st : ipcookie_state)
    (peer received : Nat) : ipcookie_verify_result :=
  if received = cookie_of peer st.current_secret then .valid_current
  else if received = cookie_of peer st.previous_secret then .valid_previous
  else .invalid

/-- Modelled from the spec: the daemon's handling of a SETCOOKIE-NOT-EXPECTED
message (daemon code not in the sources): run the stateless verifier on the
echoed cookie; a valid result is a confirmed-spoof log event (`true`), an
invalid one a forged notification (`false`).  No entry is created or mutated
either way — the stored entry is passed through unchanged. -/
def ipcookie_daemon_handle_not_expected (cookie_of : Nat → Nat → Nat)
    (st : ipcookie_state) (stored : Option ipcookie_entry) (peer : Nat)
    (msg : icmp6_ipck_message) : Option ipcookie_entry × Bool :=
  (stored,
   match ipcookie_verify cookie_of st peer msg.echoed_cookie with
   | .invalid => false
   | _ => true)

/-- Helper: field-by-field outcome of a matching SET-COOKIE application. -/
theorem apply_set_cookie_match_fields (ce : ipcookie_entry) (msg : icmp6_ipck_message)
    (t_now : Nat) (h : msg.echoed_cookie = ce.ipcookie) :
    (ipcookie_daemon_apply_set_cookie ce msg t_now).ipcookie = msg.requested_cookie ∧
    entry_lifetime_log2 (ipcookie_daemon_apply_set_cookie ce msg t_now)
      = icmp6_msg_lt_log2 msg ∧
    entry_mtime (ipcookie_daemon_apply_set_cookie ce msg t_now) = t_now % TS_MOD ∧
    ipcookie_entry_isset_expecting_setcookie
      (ipcookie_daemon_apply_set_cookie ce msg t_now) = false ∧
    ipcookie_entry_isset_disable_cookies
      (ipcookie_daemon_apply_set_cookie ce msg t_now) = false ∧
    (ipcookie_daemon_apply_set_cookie ce msg t_now).peer = ce.peer := by
  have hlt : icmp6_msg_lt_log2 msg < 16 := by
    rw [msg_lt_log2_eq_mod]
    omega
  simp only [ipcookie_daemon_apply_set_cookie, h, if_true]
  refine ⟨rfl, ?_, ?_, ?_, ?_, rfl⟩
  · rw [lifetime_clear_disable, lifetime_clear_expecting, lifetime_update_mtime,
      lifetime_set_lifetime]
    omega
  · rw [mtime_clear_disable, mtime_clear_expecting, entry_mtime_update]
  · rw [expecting_clear_disable, expecting_clear_expecting]
  · rw [disable_clear_disable]

/-- C4: daemon processing of SET-COOKIE for a peer with entry `E` mutates `E`
exactly on a match of the echoed cookie: on match the entry ends with
`cookie = requested`, `lifetime_log2` taken from the message, mtime set to
the current timestamp and both `EXPECTING_SETCOOKIE` and `DISABLE_COOKIES`
cleared (ACTIVE-SETTLED), the peer field untouched; on mismatch the entry is
returned with every field unchanged. -/
theorem daemon_set_cookie_entry (ce : ipcookie_entry) (msg : icmp6_ipck_message)
    (t_now : Nat) :
    (msg.echoed_cookie = ce.ipcookie →
      ((ipcookie_daemon_apply_set_cookie ce msg t_now).ipcookie = msg.requested_cookie ∧
       entry_lifetime_log2 (ipcookie_daemon_apply_set_cookie ce msg t_now)
         = icmp6_msg_lt_log2 msg ∧
       entry_mtime (ipcookie_daemon_apply_set_cookie ce msg t_now) = t_now % TS_MOD ∧
       ipcookie_entry_isset_expecting_setcookie
         (ipcookie_daemon_apply_set_cookie ce msg t_now) = false ∧
       ipcookie_entry_isset_disable_cookies
         (ipcookie_daemon_apply_set_cookie ce msg t_now) = false ∧
       (ipcookie_daemon_apply_set_cookie ce msg t_now).peer = ce.peer)) ∧
    (msg.echoed_cookie ≠ ce.ipcookie →
      ipcookie_daemon_apply_set_cookie ce msg t_now = ce) := by
  constructor
  · exact apply_set_cookie_match_fields ce msg t_now
  · intro h
    simp only [ipcookie_daemon_apply_set_cookie, h, if_false]

/-- Concrete witness for `daemon_set_cookie_entry`: the echo/match round trip
of scenario S1 (entry with cookie 0, `SET-COOKIE(echoed = 0, requested =
0xAAA, lt = 4)` at `t = 2`) and a mismatching message against the same entry. -/
theorem daemon_set_cookie_entry_witness :
    ((ipcookie_daemon_apply_set_cookie ⟨7, 0, 0, 0x40, 0⟩ ⟨1, 4, 0, 0xAAA⟩ 2).ipcookie
        = 0xAAA ∧
      entry_lifetime_log2
        (ipcookie_daemon_apply_set_cookie ⟨7, 0, 0, 0x40, 0⟩ ⟨1, 4, 0, 0xAAA⟩ 2) = 4) ∧
    ipcookie_daemon_apply_set_cookie ⟨7, 0, 0, 0x40, 0⟩ ⟨1, 4, 3, 0xBBB⟩ 2
      = ⟨7, 0, 0, 0x40, 0⟩ :=
  ⟨⟨((daemon_set_cookie_entry ⟨7, 0, 0, 0x40, 0⟩ ⟨1, 4, 0, 0xAAA⟩ 2).1 (by decide)).1,
    by
      rw [((daemon_set_cookie_entry ⟨7, 0, 0, 0x40, 0⟩ ⟨1, 4, 0, 0xAAA⟩ 2).1
        (by decide)).2.1]
      decide⟩,
   (daemon_set_cookie_entry ⟨7, 0, 0, 0x40, 0⟩ ⟨1, 4, 3, 0xBBB⟩ 2).2 (by decide)⟩

/-- C8: a SET-COOKIE from a peer with no cache entry is answered with a
SETCOOKIE-NOT-EXPECTED whose echoed cookie is the received message's
`requested_cookie` field, and no entry is created; and SETCOOKIE-NOT-EXPECTED
processing never creates or mutates an entry, whatever the verifier says. -/
theorem daemon_no_entry_behaviour (msg : icmp6_ipck_message) (t_now : Nat) :
    (ipcookie_daemon_handle_set_cookie none msg t_now).1 = none ∧
    (ipcookie_daemon_handle_set_cookie none msg t_now).2
      = some (ICMP6_IC_SETCOOKIE_NOT_EXPECTED, msg.requested_cookie) ∧
    ∀ (cookie_of : Nat → Nat → Nat) (st : ipcookie_state)
      (stored : Option ipcookie_entry) (peer : Nat) (m : icmp6_ipck_message),
      (ipcookie_daemon_handle_not_expected cookie_of st stored peer m).1 = stored := by
  refine ⟨rfl, rfl, fun _ _ _ _ _ => rfl⟩

/-- C7: the stateless verifier accepts the CURRENT-secret cookie of any peer
as `valid_current`; whenever the PREVIOUS-secret cookie differs from the
CURRENT one it is accepted as `valid_previous` (CURRENT is checked first, so
on a collision the answer is `valid_current`); and anything matching neither
derivation is `invalid`.  The verifier is a pure function of the secret state
and its inputs. -/
theorem ssv_verify_secrets (cookie_of : Nat → Nat → Nat) (st : ipcookie_state)
    (peer : Nat) :
    ipcookie_verify cookie_of st peer (cookie_of peer st.current_secret)
      = .valid_current ∧
    (cookie_of peer st.previous_secret ≠ cookie_of peer st.current_secret →
      ipcookie_verify cookie_of st peer (cookie_of peer st.previous_secret)
        = .valid_previous) ∧
    (∀ received, received ≠ cookie_of peer st.current_secret →
      received ≠ cookie_of peer st.previous_secret →
      ipcookie_verify cookie_of st peer received = .invalid) := by
  refine ⟨?_, ?_, ?_⟩
  · simp [ipcookie_verify]
  · intro h
    simp [ipcookie_verify, h]
  · intro received h1 h2
    simp [ipcookie_verify, h1, h2]

/-- Concrete witness for `ssv_verify_secrets`: the derivation
`cookie_of p s = p + s` with secrets `(1, 2)` at peer 0, where the previous
cookie 2 differs from the current cookie 1, and the received value 5 matches
neither. -/
theorem ssv_verify_secrets_witness :
    ipcookie_verify (fun p s => p + s) ⟨1, 2⟩ 0 1 = .valid_current ∧
    ipcookie_verify (fun p s => p + s) ⟨1, 2⟩ 0 2 = .valid_previous ∧
    ipcookie_verify (fun p s => p + s) ⟨1, 2⟩ 0 5 = .invalid :=
  ⟨(ssv_verify_secrets (fun p s => p + s) ⟨1, 2⟩ 0).1,
   (ssv_verify_secrets (fun p s => p + s) ⟨1, 2⟩ 0).2.1 (by decide),
   (ssv_verify_secrets (fun p s => p + s) ⟨1, 2⟩ 0).2.2 5 (by decide) (by decide)⟩

/-- C10: the lifetime value the daemon reads from a control message is the
low four bits of the first ICMP data byte (the byte masked with
`ICMP6_IPCK_LT_LOG2_MASK = 0x0F`), so whatever the reserved upper bits of
that byte carry on the wire, the lifetime installed into the entry's
`flags_and_lifetime_log2` byte by a matching SET-COOKIE lies in `{0..15}`. -/
theorem daemon_lt_log2_masked (msg : icmp6_ipck_message) (ce : ipcookie_entry)
    (t_now : Nat) (h : msg.echoed_cookie = ce.ipcookie) :
    icmp6_msg_lt_log2 msg = msg.icmp6_data8_0 % 16 ∧
    icmp6_msg_lt_log2 msg < 16 ∧
    entry_lifetime_log2 (ipcookie_daemon_apply_set_cookie ce msg t_now)
      = icmp6_msg_lt_log2 msg ∧
    entry_lifetime_log2 (ipcookie_daemon_apply_set_cookie ce msg t_now) < 16 := by
  have hmod := msg_lt_log2_eq_mod msg
  have hlt : icmp6_msg_lt_log2 msg < 16 := by omega
  have hinstall := (apply_set_cookie_match_fields ce msg t_now h).2.1
  exact ⟨hmod, hlt, hinstall, by omega⟩

/-- Concrete witness for `daemon_lt_log2_masked`: a wire byte `0xF4` with all
reserved upper bits set still installs lifetime 4. -/
theorem daemon_lt_log2_masked_witness :
    icmp6_msg_lt_log2 ⟨1, 0xF4, 0, 9⟩ = 4 ∧
    entry_lifetime_log2
      (ipcookie_daemon_apply_set_cookie ⟨7, 0, 0, 0x40, 0⟩ ⟨1, 0xF4, 0, 9⟩ 2) = 4 := by
  have h := daemon_lt_log2_masked ⟨1, 0xF4, 0, 9⟩ ⟨7, 0, 0, 0x40, 0⟩ 2 (by decide)
  refine ⟨?_, ?_⟩
  · rw [h.1]
    decide
  · rw [h.2.2.1, h.1]
    decide

/-! ## The flag/lifetime invariant -/

/-- The specification's entry invariant: `lifetime_log2 = 0xF` implies
`DISABLE_COOKIES` set, and `EXPECTING_SETCOOKIE` set implies
`DISABLE_COOKIES` clear. -/
def ipcookie_entry_wf (ce : ipcookie_entry) : Bool :=
  (!(decide (entry_lifetime_log2 ce = IPCOOKIE_LIFETIME_LOG2_INFINITE))
      || ipcookie_entry_isset_disable_cookies ce)
    && (!(ipcookie_entry_isset_expecting_setcookie ce)
      || !(ipcookie_entry_isset_disable_cookies ce))

/-- The invariant, phrased as arithmetic on the flags byte. -/
theorem entry_wf_iff (ce : ipcookie_entry) :
    ipcookie_entry_wf ce = true ↔
      ((ce.flags_and_lifetime_log2 % 16 = 15 →
        ce.flags_and_lifetime_log2 / 128 % 2 = 1) ∧
       (ce.flags_and_lifetime_log2 / 64 % 2 = 1 →
        ¬ ce.flags_and_lifetime_log2 / 128 % 2 = 1)) := by
  unfold ipcookie_entry_wf entry_lifetime_log2 IPCOOKIE_LIFETIME_LOG2_INFINITE
    ipcookie_entry_isset_disable_cookies ipcookie_entry_isset_expecting_setcookie
  simp only [Bool.and_eq_true, Bool.or_eq_true, Bool.not_eq_true', decide_eq_false_iff_not,
    decide_eq_true_eq]
  tauto

/-- C5 (amended): the invariant (`lifetime_log2 = 0xF ⇒ DISABLE_COOKIES`;
`EXPECTING_SETCOOKIE ⇒ ¬DISABLE_COOKIES`) is established by entry creation
and preserved by every send-path transition; daemon SET-COOKIE processing
preserves it provided the lifetime it installs (the masked wire value) is not
the infinite sentinel `0xF` — a matching SET-COOKIE carrying `lt_log2 = 0xF`
installs the sentinel while clearing `DISABLE_COOKIES` and so violates the
invariant (see the counterexample). -/
theorem entry_wf_preserved :
    (∀ peer active t_now,
      ipcookie_entry_wf (ipcookie_entry_create peer active t_now) = true) ∧
    (∀ ce t_now, ipcookie_entry_wf ce = true →
      ipcookie_entry_wf (ipcookie_shim_send_entry ce t_now) = true) ∧
    (∀ ce msg t_now, ipcookie_entry_wf ce = true →
      icmp6_msg_lt_log2 msg ≠ IPCOOKIE_LIFETIME_LOG2_INFINITE →
      ipcookie_entry_wf (ipcookie_daemon_apply_set_cookie ce msg t_now) = true) := by
  refine ⟨?_, ?_, ?_⟩
  · intro peer active t_now
    cases active <;>
      · rw [entry_wf_iff]
        simp only [ipcookie_entry_create, Bool.false_eq_true, if_false, if_true,
          ite_true, ite_false, ipcookie_entry_set_disable_cookies,
          ipcookie_entry_set_expecting_setcookie, ipcookie_entry_set_lifetime_log2,
          IPCOOKIE_LIFETIME_LOG2_INFINITE]
        split_ifs <;> simp_all
  · intro ce t_now h
    rw [entry_wf_iff] at h
    rcases hcv : check_ipcookie_entry_timestamp ce t_now with _ | _ | _
    · simp only [ipcookie_shim_send_entry, hcv]
      rw [entry_wf_iff]
      exact h
    all_goals
      simp only [ipcookie_shim_send_entry, hcv]
      rcases hd : ipcookie_entry_isset_disable_cookies ce with _ | _ <;>
      rcases hx : ipcookie_entry_isset_expecting_setcookie ce with _ | _ <;>
      (try simp only [hd, hx, Bool.false_eq_true, if_true, if_false, ite_true,
        ite_false]) <;>
      (try simp only [ipcookie_entry_isset_disable_cookies,
        ipcookie_entry_isset_expecting_setcookie, decide_eq_true_eq,
        decide_eq_false_iff_not] at hd hx) <;>
      rw [entry_wf_iff] <;>
      (try simp only [ipcookie_entry_set_lifetime_log2, ipcookie_entry_update_mtime,
        ipcookie_entry_clear_disable_cookies, ipcookie_entry_set_disable_cookies,
        ipcookie_entry_set_expecting_setcookie, ipcookie_entry_clear_expecting_setcookie,
        ipcookie_entry_mtime_backdate_by_lifetime_log2, IPCOOKIE_TRY_LT2,
        IPCOOKIE_FALLBACK_LT2]) <;>
      first
        | exact h
        | (split_ifs <;> simp_all <;> omega)
        | omega
  · intro ce msg t_now h hlt
    rw [entry_wf_iff] at h
    rw [msg_lt_log2_eq_mod] at hlt
    unfold IPCOOKIE_LIFETIME_LOG2_INFINITE at hlt
    by_cases hm : msg.echoed_cookie = ce.ipcookie
    · simp only [ipcookie_daemon_apply_set_cookie, hm, if_true, msg_lt_log2_eq_mod]
      rw [entry_wf_iff]
      simp only [ipcookie_entry_set_lifetime_log2, ipcookie_entry_update_mtime,
        ipcookie_entry_clear_disable_cookies, ipcookie_entry_clear_expecting_setcookie]
      split_ifs <;> (try simp_all) <;> omega
    · simp only [ipcookie_daemon_apply_set_cookie, hm, if_false]
      rw [entry_wf_iff]
      exact h

/-- Concrete witness for `entry_wf_preserved`: creation at `t = 0`, the S3
fallback transition, and a matching SET-COOKIE installing lifetime 4. -/
theorem entry_wf_preserved_witness :
    ipcookie_entry_wf (ipcookie_entry_create 7 true 0) = true ∧
    ipcookie_entry_wf (ipcookie_shim_send_entry ⟨7, 2, 0, 0x44, 9⟩ 22) = true ∧
    ipcookie_entry_wf
      (ipcookie_daemon_apply_set_cookie ⟨7, 0, 0, 0x40, 5⟩ ⟨1, 4, 5, 9⟩ 2) = true :=
  ⟨entry_wf_preserved.1 7 true 0,
   entry_wf_preserved.2.1 ⟨7, 2, 0, 0x44, 9⟩ 22 (by decide),
   entry_wf_preserved.2.2 ⟨7, 0, 0, 0x40, 5⟩ ⟨1, 4, 5, 9⟩ 2 (by decide) (by decide)⟩

/-- C5 counterexample: the invariant is NOT preserved by daemon SET-COOKIE
processing as claimed.  A well-formed ACTIVE-EXPECTING entry (cookie 5)
receiving a matching SET-COOKIE with wire `lt_log2 = 0xF` ends with the
infinite lifetime sentinel installed while `DISABLE_COOKIES` is clear. -/
theorem entry_wf_broken_by_set_cookie :
    ipcookie_entry_wf ⟨7, 0, 0, 0x40, 5⟩ = true ∧
    entry_lifetime_log2
        (ipcookie_daemon_apply_set_cookie ⟨7, 0, 0, 0x40, 5⟩ ⟨1, 0xF, 5, 9⟩ 2)
      = IPCOOKIE_LIFETIME_LOG2_INFINITE ∧
    ipcookie_entry_isset_disable_cookies
        (ipcookie_daemon_apply_set_cookie ⟨7, 0, 0, 0x40, 5⟩ ⟨1, 0xF, 5, 9⟩ 2)
      = false ∧
    ipcookie_entry_wf
        (ipcookie_daemon_apply_set_cookie ⟨7, 0, 0, 0x40, 5⟩ ⟨1, 0xF, 5, 9⟩ 2)
      = false := by
  refine ⟨?_, ?_, ?_, ?_⟩ <;> decide

end IPCookies
